import Mathlib

/-!
Verification development for the expense-tracker application (`src/app.py`).

The application keeps a session ledger of transactions (`st.session_state.transactions`,
a Python list of dicts), adds to it either through a manual-entry form or by scanning a
receipt with an external model (`analyze_receipt_image`), shows aggregates on a
dashboard, and asks the external model for advice (`get_dashboard_insights`).

Python strings are modelled as `List Char` (`Str`), transactions (Python dicts) as the
structure `Tx` (the four fields the program reads, plus a list of any extra keys), and
JSON values produced by `json.loads` as the inductive `JsonVal`.  Stateful UI handlers
become explicit functions from the ledger (and the user-controlled or collaborator-
controlled inputs) to the new ledger.
-/

/-- Python strings modelled as lists of characters. -/
abbrev Str := List Char

/-- Whitespace stripped by Python's `str.strip()` (ASCII subset). -/
def isPySpace (c : Char) : Bool :=
  c == ' ' || c == '\t' || c == '\n' || c == '\r' || c == '\x0b' || c == '\x0c'

/-- `str.strip()`: remove leading and trailing whitespace. -/
def pyStrip (s : Str) : Str :=
  ((s.dropWhile isPySpace).reverse.dropWhile isPySpace).reverse

/-- JSON values, the result type of Python's `json.loads`. -/
inductive JsonVal where
  | null : JsonVal
  | bool (b : Bool) : JsonVal
  | num (q : ℚ) : JsonVal
  | str (s : Str) : JsonVal
  | arr (xs : List JsonVal) : JsonVal
  | obj (ms : List (Str × JsonVal)) : JsonVal

/-- Discriminator: is this JSON value an object (a Python dict)? -/
def JsonVal.isObj : JsonVal → Bool
  | .obj _ => true
  | _ => false

/-- Whitespace skipped by the JSON grammar. -/
def isJsonWs (c : Char) : Bool :=
  c == ' ' || c == '\t' || c == '\n' || c == '\r'

/-- Skip JSON whitespace. -/
def skipJWs (s : List Char) : List Char := s.dropWhile isJsonWs

/-- Parse the body of a JSON string literal (the opening quote already consumed),
returning the decoded characters and the rest of the input. -/
def parseStringBody : List Char → Option (Str × List Char)
  | [] => none
  | '"' :: rest => some ([], rest)
  | '\\' :: e :: rest =>
    let dec : Option Char :=
      if e = '"' then some '"'
      else if e = '\\' then some '\\'
      else if e = '/' then some '/'
      else if e = 'n' then some '\n'
      else if e = 't' then some '\t'
      else if e = 'r' then some '\r'
      else if e = 'b' then some (Char.ofNat 8)
      else if e = 'f' then some (Char.ofNat 12)
      else none
    match dec with
    | none => none
    | some d =>
      match parseStringBody rest with
      | some (s, r) => some (d :: s, r)
      | none => none
  | c :: rest =>
    match parseStringBody rest with
    | some (s, r) => some (c :: s, r)
    | none => none

/-- Decimal value of a digit string. -/
def digitsToNat (ds : Str) : Nat :=
  ds.foldl (fun a c => a * 10 + (c.toNat - 48)) 0

/-- Parse an optional JSON fraction part, returned as a rational summand. -/
def parseFrac (s : List Char) : Option (ℚ × List Char) :=
  match s with
  | '.' :: r =>
    let fs := r.takeWhile Char.isDigit
    if fs.isEmpty then none
    else some ((digitsToNat fs : ℚ) / (10 : ℚ) ^ fs.length, r.dropWhile Char.isDigit)
  | _ => some (0, s)

/-- Parse an optional JSON exponent part, returned as a rational multiplier. -/
def parseExp (s : List Char) : Option (ℚ × List Char) :=
  match s with
  | c :: r =>
    if c = 'e' ∨ c = 'E' then
      let (eneg, r1) :=
        match r with
        | '-' :: r2 => (true, r2)
        | '+' :: r2 => (false, r2)
        | _ => (false, r)
      let es := r1.takeWhile Char.isDigit
      if es.isEmpty then none
      else
        let e := digitsToNat es
        some (if eneg then (1 : ℚ) / (10 : ℚ) ^ e else (10 : ℚ) ^ e,
              r1.dropWhile Char.isDigit)
    else some (1, s)
  | [] => some (1, [])

/-- Parse a JSON number. -/
def parseNumber (s : List Char) : Option (ℚ × List Char) :=
  let (neg, s1) :=
    match s with
    | '-' :: r => (true, r)
    | _ => (false, s)
  let ds := s1.takeWhile Char.isDigit
  if ds.isEmpty then none
  else
    match parseFrac (s1.dropWhile Char.isDigit) with
    | none => none
    | some (f, s3) =>
      match parseExp s3 with
      | none => none
      | some (m, s4) =>
        let q := ((digitsToNat ds : ℚ) + f) * m
        some (if neg then -q else q, s4)

mutual

/-- Parse one JSON value (fuelled recursion; the fuel bounds nesting depth and
element counts, and `json_loads` supplies more fuel than any input can use). -/
def parseVal : Nat → List Char → Option (JsonVal × List Char)
  | 0, _ => none
  | fuel + 1, s =>
    match skipJWs s with
    | [] => none
    | c :: rest =>
      if c = '[' then
        match skipJWs rest with
        | ']' :: r2 => some (.arr [], r2)
        | _ =>
          match parseElems fuel rest with
          | some (xs, r2) => some (.arr xs, r2)
          | none => none
      else if c = '\x7b' then
        match skipJWs rest with
        | '\x7d' :: r2 => some (.obj [], r2)
        | _ =>
          match parseMembers fuel rest with
          | some (ms, r2) => some (.obj ms, r2)
          | none => none
      else if c = '"' then
        match parseStringBody rest with
        | some (s1, r2) => some (.str s1, r2)
        | none => none
      else if c = 't' then
        match rest with
        | 'r' :: 'u' :: 'e' :: r2 => some (.bool true, r2)
        | _ => none
      else if c = 'f' then
        match rest with
        | 'a' :: 'l' :: 's' :: 'e' :: r2 => some (.bool false, r2)
        | _ => none
      else if c = 'n' then
        match rest with
        | 'u' :: 'l' :: 'l' :: r2 => some (.null, r2)
        | _ => none
      else
        match parseNumber (c :: rest) with
        | some (q, r2) => some (.num q, r2)
        | none => none

/-- Parse the comma-separated elements of a (non-empty) JSON array, up to `]`. -/
def parseElems : Nat → List Char → Option (List JsonVal × List Char)
  | 0, _ => none
  | fuel + 1, s =>
    match parseVal fuel s with
    | none => none
    | some (v, r) =>
      match skipJWs r with
      | ',' :: r2 =>
        match parseElems fuel r2 with
        | some (xs, r3) => some (v :: xs, r3)
        | none => none
      | ']' :: r2 => some ([v], r2)
      | _ => none

/-- Parse the members of a (non-empty) JSON object, up to the closing brace. -/
def parseMembers : Nat → List Char → Option (List (Str × JsonVal) × List Char)
  | 0, _ => none
  | fuel + 1, s =>
    match skipJWs s with
    | '"' :: r =>
      match parseStringBody r with
      | none => none
      | some (k, r1) =>
        match skipJWs r1 with
        | ':' :: r2 =>
          match parseVal fuel r2 with
          | none => none
          | some (v, r3) =>
            match skipJWs r3 with
            | ',' :: r4 =>
              match parseMembers fuel r4 with
              | some (ms, r5) => some ((k, v) :: ms, r5)
              | none => none
            | '\x7d' :: r4 => some ([(k, v)], r4)
            | _ => none
        | _ => none
    | _ => none

end

/-- Python's `json.loads`: parse a complete JSON document, tolerating surrounding
whitespace, `none` on any parse error. -/
def json_loads (s : Str) : Option JsonVal :=
  match parseVal (s.length + 1) s with
  | some (v, r) => if (skipJWs r).isEmpty then some v else none
  | none => none

/-- The opening code-fence marker the source checks for (`clean_text.startswith`). -/
def fenceJson : Str := "```json".data

/-- The closing code-fence marker the source checks for (`clean_text.endswith`). -/
def fence : Str := "```".data

/-- The response clean-up in `analyze_receipt_image`:
`clean_text = response.text.strip()`, then drop a leading ```` ```json ````
(7 characters) if present, then drop a trailing ```` ``` ```` (3 characters)
if present. -/
def clean_receipt_text (s : Str) : Str :=
  let t := pyStrip s
  let t1 := if fenceJson.isPrefixOf t then t.drop fenceJson.length else t
  if fence.isSuffixOf t1 then t1.take (t1.length - fence.length) else t1

/-- `analyze_receipt_image`, modelled over the outcome of its `try` block up to
`response.text`: `Except.error e` stands for any exception raised by
`Image.open`, the collaborator call, or `.text` access; `Except.ok text` is the
collaborator's response text.  The function cleans the text, parses it with
`json.loads`, and returns the parsed value; every exception (including a JSON
parse failure) is caught, an error notice is displayed (`st.error`, the `Bool`
component), and the Python value `[]` — here `JsonVal.arr []` — is returned. -/
def analyze_receipt_image (resp : Except Str Str) : JsonVal × Bool :=
  match resp with
  | .error _ => (.arr [], true)
  | .ok text =>
    match json_loads (clean_receipt_text text) with
    | some v => (v, false)
    | none => (.arr [], true)

example : json_loads "[]".data = some (.arr []) := rfl
example : json_loads "\x7b\"a\": \"b\"\x7d".data
    = some (.obj [("a".data, .str "b".data)]) := rfl
example : json_loads "not json".data = none := rfl
example : clean_receipt_text "```json\n[]\n```".data = "\n[]\n".data := by decide
example : clean_receipt_text "```\n[]\n```".data = "```\n[]\n".data := by decide

/-- A transaction record: a Python dict as stored in `st.session_state.transactions`.
The four fields the program reads are explicit (each may be absent, and may hold a
value of any JSON type, since scanned rows are user-edited untyped data); any other
keys a row may carry are kept in `extra`. -/
structure Tx where
  description : Option JsonVal := none
  amount : Option JsonVal := none
  category : Option JsonVal := none
  date : Option JsonVal := none
  extra : List (Str × JsonVal) := []

/-- The session ledger: `st.session_state.transactions`, a Python list. -/
abbrev Ledger := List Tx

/-- The category options offered by the manual-entry selectbox (and named in the
extraction prompt): the closed category set. -/
def categories : List Str :=
  ["Food".data, "Transport".data, "Tech".data, "Utilities".data, "Other".data]

/-- The record built by the manual-entry form handler:
`{"description": desc, "amount": amt, "category": cat, "date": str(date)}`. -/
def mkManualTx (desc : Str) (amt : ℚ) (cat : Str) (date : Str) : Tx :=
  { description := some (.str desc), amount := some (.num amt),
    category := some (.str cat), date := some (.str date) }

/-- The `Add Expense` form handler: `st.session_state.transactions.append(new_tx)`. -/
def manual_add (l : Ledger) (desc : Str) (amt : ℚ) (cat : Str) (date : Str) : Ledger :=
  l ++ [mkManualTx desc amt cat date]

/-- The `Save These Items` line: `st.session_state.transactions.extend(new_items)`. -/
def save_items (l : Ledger) (items : List Tx) : Ledger :=
  l ++ items

/-- The `Clear All Data` handler: `st.session_state.transactions = []`. -/
def clear_data (_ : Ledger) : Ledger := []

/-- The dashboard's history read: the dataframe is built from the session list and
displayed in insertion order. -/
def dashboard_history (l : Ledger) : List Tx := l

/-- The numeric value of a row's amount cell; a missing or `None` cell is 0,
standing for the `NaN` the pandas sum skips.  `df_amount_sum` consults this
only in its branch where every present cell is numeric or `None`, so the 0
never stands in for an error path. -/
def getAmount (t : Tx) : ℚ :=
  match t.amount with
  | some (.num q) => q
  | _ => 0

/-- Does the row's dict carry the `amount` key at all?  (A `None` value still
creates the column; only rows without the key contribute no column.) -/
def hasAmountKey (t : Tx) : Bool :=
  t.amount.isSome

/-- Is the row's amount cell a number? -/
def numCell (t : Tx) : Bool :=
  match t.amount with
  | some (.num _) => true
  | _ => false

/-- A present amount cell that is neither a number nor `None`: such a cell
gives the column object dtype, and the pandas sum over it is not a numeric
total (a `TypeError` on mixed types, or string concatenation). -/
def badCell (t : Tx) : Bool :=
  match t.amount with
  | some (.num _) => false
  | some .null => false
  | none => false
  | some _ => true

/-- The outcome of the pandas expression `df['amount'].sum()` on a dataframe
built from the session transaction list. -/
inductive PdSum where
  | keyError : PdSum
  | nonNumeric : PdSum
  | val (q : ℚ) : PdSum
deriving DecidableEq

/-- `df['amount'].sum()` on `df = pd.DataFrame(l)`.  When no row carries an
`amount` key — in particular when `l` is empty, where `pd.DataFrame([])` has no
columns at all — the lookup `df['amount']` raises `KeyError`.  When a present
cell is neither numeric nor `None`, the object-dtype sum is not a numeric
total.  Otherwise the column is numeric, missing and `None` cells are `NaN`
and skipped by `sum`, and the result is the sum of the numeric cells. -/
def df_amount_sum (l : Ledger) : PdSum :=
  if l.all (fun t => !hasAmountKey t) then .keyError
  else if l.any badCell then .nonNumeric
  else .val (l.map getAmount).sum

/-- The dashboard's total: the source computes `df['amount'].sum()` only inside
the `if len(st.session_state.transactions) > 0` branch; for the empty ledger
the view shows the no-data notice and computes no total at all. -/
def dashboard_total (l : Ledger) : Option PdSum :=
  if 0 < l.length then some (df_amount_sum l) else none

/-- Python truthiness of a JSON value (the `if items:` test on the result of
`analyze_receipt_image`). -/
def truthy : JsonVal → Bool
  | .null => false
  | .bool b => b
  | .num q => decide (q ≠ 0)
  | .str s => !s.isEmpty
  | .arr xs => !xs.isEmpty
  | .obj ms => !ms.isEmpty

/-- The receipt-scanner flow's effect on the ledger.  `resp` is the outcome of the
collaborator call, `edited` models `st.data_editor`: the user sees the extracted
value and may freely edit, add, or remove rows before saving, so the saved rows are
an arbitrary function of the extracted value; `savePressed` is the `Save These
Items` button.  The save handler runs only when `if items:` holds (Python
truthiness) and the button is pressed, and it extends the session list with the
edited rows, with no validation of any kind. -/
def receipt_scan_step (l : Ledger) (resp : Except Str Str)
    (edited : JsonVal → List Tx) (savePressed : Bool) : Ledger :=
  let items := (analyze_receipt_image resp).1
  if truthy items then
    if savePressed then save_items l (edited items) else l
  else l

/-- The invariant claimed of stored transactions: the amount is a number greater
than 0 and the category is a member of the closed set. -/
def validRec (t : Tx) : Bool :=
  (match t.amount with
   | some (.num q) => decide (0 < q)
   | _ => false) &&
  (match t.category with
   | some (.str c) => categories.contains c
   | _ => false)

/-- Ledger states reachable from the empty session ledger through the program's
handlers: the manual-entry form (whose widgets enforce `min_value=0.01` on the
amount and restrict the category to the selectbox options), the receipt-scanner
save flow, and the clear button. -/
inductive Reachable : Ledger → Prop where
  | empty : Reachable []
  | manual (l : Ledger) (desc : Str) (amt : ℚ) (cat : Str) (date : Str) :
      Reachable l → 1 / 100 ≤ amt → cat ∈ categories →
      Reachable (manual_add l desc amt cat date)
  | scan (l : Ledger) (resp : Except Str Str) (edited : JsonVal → List Tx)
      (savePressed : Bool) :
      Reachable l → Reachable (receipt_scan_step l resp edited savePressed)
  | clearStep (l : Ledger) : Reachable l → Reachable (clear_data l)

/-- Ledger states reachable using the manual-entry form and the clear button only
(no receipt-scanner saves). -/
inductive ReachableManual : Ledger → Prop where
  | empty : ReachableManual []
  | add (l : Ledger) (desc : Str) (amt : ℚ) (cat : Str) (date : Str) :
      ReachableManual l → 1 / 100 ≤ amt → cat ∈ categories →
      ReachableManual (manual_add l desc amt cat date)
  | clearStep (l : Ledger) : ReachableManual l → ReachableManual (clear_data l)

/-- One ledger-growing user action: a manual form submission or a receipt-scan
save of a batch of rows. -/
inductive LedgerOp where
  | manual (desc : Str) (amt : ℚ) (cat : Str) (date : Str) : LedgerOp
  | save (items : List Tx) : LedgerOp

/-- Apply one ledger-growing action through the corresponding handler. -/
def applyOp (l : Ledger) : LedgerOp → Ledger
  | .manual desc amt cat date => manual_add l desc amt cat date
  | .save items => save_items l items

/-- Apply a sequence of ledger-growing actions in order. -/
def applyOps (l : Ledger) (ops : List LedgerOp) : Ledger :=
  ops.foldl applyOp l

/-- The transactions an action contributes, in order. -/
def opTxs : LedgerOp → List Tx
  | .manual desc amt cat date => [mkManualTx desc amt cat date]
  | .save items => items

/-- The transactions a sequence of actions contributes, in order. -/
def opsTxs (ops : List LedgerOp) : List Tx :=
  (ops.map opTxs).flatten

/-- Shape check for the spec's `YYYY-MM-DD` date form (used only to state
counterexamples; the source itself contains no date validation — `datetime` is
imported and never used). -/
def isDashDate (s : Str) : Bool :=
  match s with
  | [y1, y2, y3, y4, d1, m1, m2, d2, e1, e2] =>
    y1.isDigit && y2.isDigit && y3.isDigit && y4.isDigit && (d1 == '-') &&
    m1.isDigit && m2.isDigit && (d2 == '-') && e1.isDigit && e2.isDigit
  | _ => false

example : isDashDate "2024-03-01".data = true := by decide
example : isDashDate "not-a-date".data = false := by decide

/-- Join serialized pieces with the `", "` separator Python's `json.dumps` uses. -/
def joinComma : List Str → Str
  | [] => []
  | [x] => x
  | x :: y :: ys => x ++ ", ".data ++ joinComma (y :: ys)

/-- Escape one character for a JSON string literal. -/
def escChar (c : Char) : Str :=
  if c = '"' then "\\\"".data
  else if c = '\\' then "\\\\".data
  else if c = '\n' then "\\n".data
  else if c = '\t' then "\\t".data
  else if c = '\r' then "\\r".data
  else [c]

/-- Serialize a string as a JSON string literal. -/
def dumpsStr (s : Str) : Str :=
  "\"".data ++ (s.map escChar).flatten ++ "\"".data

mutual

/-- Serialize one JSON value as `json.dumps` does (with Python's default
`", "` and `": "` separators; the textual form of numbers is abstracted by
`toString` on the rational value). -/
def dumpsVal : JsonVal → Str
  | .null => "null".data
  | .bool true => "true".data
  | .bool false => "false".data
  | .num q => (toString q).data
  | .str s => dumpsStr s
  | .arr xs => "[".data ++ joinComma (dumpsVals xs) ++ "]".data
  | .obj ms => "\x7b".data ++ joinComma (dumpsMembers ms) ++ "\x7d".data

/-- Serialize a list of JSON values. -/
def dumpsVals : List JsonVal → List Str
  | [] => []
  | v :: vs => dumpsVal v :: dumpsVals vs

/-- Serialize the members of a JSON object. -/
def dumpsMembers : List (Str × JsonVal) → List Str
  | [] => []
  | (k, v) :: ms => (dumpsStr k ++ ": ".data ++ dumpsVal v) :: dumpsMembers ms

end

/-- Serialize one optional dict field. -/
def dumpsField (k : Str) : Option JsonVal → List Str
  | some v => [dumpsStr k ++ ": ".data ++ dumpsVal v]
  | none => []

/-- Serialize one transaction dict, fields in their insertion order
(`description`, `amount`, `category`, `date`, then any extra keys). -/
def dumpsRec (t : Tx) : Str :=
  "\x7b".data ++
    joinComma (dumpsField "description".data t.description ++
               dumpsField "amount".data t.amount ++
               dumpsField "category".data t.category ++
               dumpsField "date".data t.date ++
               dumpsMembers t.extra) ++
  "\x7d".data

/-- `json.dumps(data)` for the session transaction list. -/
def dumps_ledger (l : Ledger) : Str :=
  "[".data ++ joinComma (l.map dumpsRec) ++ "]".data

/-- The advice prompt text before the interpolated `json.dumps(data)`. -/
def promptPre : Str := "\n    Here is my recent spending data: ".data

/-- The advice prompt text after the interpolated `json.dumps(data)`. -/
def promptPost : Str :=
  "\n    Give me 3 short, bullet-pointed tips to save money based on this.\n    Be direct and helpful.\n    ".data

/-- The f-string prompt of `get_dashboard_insights`, with the whole transaction
list serialized into it. -/
def buildAdvicePrompt (data : Ledger) : Str :=
  promptPre ++ dumps_ledger data ++ promptPost

/-- `get_dashboard_insights`: build the prompt from the full data and call the
collaborator (`model.generate_content(prompt).text`, modelled as a function from
the prompt to a response or a failure). -/
def get_dashboard_insights (data : Ledger)
    (generate : Str → Except Str Str) : Except Str Str :=
  generate (buildAdvicePrompt data)

/-- The `Generate New Insights` button handler: it calls
`get_dashboard_insights(st.session_state.transactions, api_key)` and displays
the result; it never writes the session transaction list. -/
def generate_insights_click (l : Ledger)
    (generate : Str → Except Str Str) : Ledger × Except Str Str :=
  (l, get_dashboard_insights l generate)

/-! ### Concrete records used in counterexamples and witnesses -/

/-- Scenario B's raw item: empty description, amount 10, category Food. -/
def itemB : Tx :=
  { description := some (.str []), amount := some (.num 10),
    category := some (.str "Food".data) }

/-- Scenario D's raw item: category `Weird`, date `not-a-date`. -/
def itemD : Tx :=
  { description := some (.str "Gadget".data), amount := some (.num (9999 / 100 : ℚ)),
    category := some (.str "Weird".data), date := some (.str "not-a-date".data) }

/-- Scenario C's raw item: a negative amount. -/
def badTaxi : Tx :=
  { description := some (.str "Taxi".data), amount := some (.num (-5)),
    category := some (.str "Transport".data) }

/-- A collaborator response whose text parses to the non-empty array `["x"]`,
so the scanner's `if items:` test passes. -/
def respX : Except Str Str := Except.ok "[\"x\"]".data

/-- A valid transaction used in witnesses. -/
def sampleTx : Tx := mkManualTx "Tea".data 4 "Food".data "2024-04-01".data

/-- A valid transaction used in witnesses. -/
def itemW : Tx :=
  { description := some (.str "Bus".data), amount := some (.num 2),
    category := some (.str "Transport".data), date := some (.str "2024-03-02".data) }

/-! ### Helper lemmas -/

/-- Concatenating actions through the handlers appends their transactions in order. -/
theorem applyOps_eq (ops : List LedgerOp) : ∀ l, applyOps l ops = l ++ opsTxs ops := by
  induction ops with
  | nil => intro l; simp [applyOps, opsTxs]
  | cons op ops ih =>
    intro l
    have h1 : applyOps l (op :: ops) = applyOps (applyOp l op) ops := rfl
    rw [h1, ih]
    cases op with
    | manual desc amt cat date =>
      simp [applyOp, manual_add, opsTxs, opTxs, List.append_assoc]
    | save items =>
      simp [applyOp, save_items, opsTxs, opTxs, List.append_assoc]

/-! ### Claim C3 -/

/-- Claim C3 counterexample: the raw item of Scenario B — empty description,
amount 10, category Food — is claimed to be dropped and never emitted; in the
program the save handler stores it unchanged in the ledger. -/
theorem c3_counterexample :
    receipt_scan_step [] respX (fun _ => [itemB]) true = [itemB] ∧
    itemB.description = some (.str []) :=
  ⟨rfl, rfl⟩

/-- Claim C3 (amended): the program performs no per-item validation at all on a
saved batch: whenever the extracted value is truthy, pressing `Save These Items`
stores every edited row as-is — items with empty descriptions or non-positive
amounts included — and drops none. -/
theorem c3_save_no_validation (l : Ledger) (resp : Except Str Str)
    (edited : JsonVal → List Tx)
    (h : truthy (analyze_receipt_image resp).1 = true) :
    receipt_scan_step l resp edited true
      = l ++ edited (analyze_receipt_image resp).1 := by
  simp [receipt_scan_step, h, save_items]

/-- Witness for `c3_save_no_validation` at a concrete response and batch. -/
theorem c3_save_no_validation_witness :
    truthy (analyze_receipt_image respX).1 = true ∧
    receipt_scan_step [] respX (fun _ => [itemB, itemW]) true
      = [] ++ (fun _ => [itemB, itemW]) (analyze_receipt_image respX).1 :=
  ⟨by decide, c3_save_no_validation [] respX (fun _ => [itemB, itemW]) (by decide)⟩

/-! ### Claim C4 -/

/-- Claim C4 counterexample: the raw item of Scenario D has category `Weird`,
which is claimed to map to `Other`; the program stores the record with category
`Weird`, a value outside the closed set. -/
theorem c4_counterexample :
    save_items [] [itemD] = [itemD] ∧
    itemD.category = some (.str "Weird".data) ∧
    categories.contains "Weird".data = false :=
  ⟨rfl, rfl, by decide⟩

/-- Claim C4 (amended): the save path applies no category coercion or
case-insensitive mapping: the stored category fields are exactly the input
category fields, verbatim.  (The closed set appears only as the manual-entry
selectbox options and as a suggestion in the extraction prompt.) -/
theorem c4_categories_stored_verbatim (l : Ledger) (items : List Tx) :
    (save_items l items).map Tx.category
      = l.map Tx.category ++ items.map Tx.category := by
  simp [save_items]

/-! ### Claim C6 -/

/-- Claim C6 counterexample: the raw item of Scenario D has date `not-a-date`,
which is claimed to be replaced by the current date; the program stores the
record with date `not-a-date` — a string that is not in `YYYY-MM-DD` form, so
it cannot be the current date on any day. -/
theorem c6_counterexample :
    save_items [] [itemD] = [itemD] ∧
    itemD.date = some (.str "not-a-date".data) ∧
    isDashDate "not-a-date".data = false :=
  ⟨rfl, rfl, by decide⟩

/-- Claim C6 (amended): the save path applies no date validation or defaulting:
the stored date fields are exactly the input date fields, verbatim.  (The
source imports `datetime` but never uses it; only the manual-entry date widget
produces a `YYYY-MM-DD` string.) -/
theorem c6_dates_stored_verbatim (l : Ledger) (items : List Tx) :
    (save_items l items).map Tx.date = l.map Tx.date ++ items.map Tx.date := by
  simp [save_items]

/-! ### Claim C7 -/

/-- Claim C7: appending any sequence of valid transactions — singly through the
manual-add handler or in batches through the save handler — and then reading
the ledger back through the dashboard's history view returns exactly those
transactions, in insertion order, with every field unchanged. -/
theorem c7_roundtrip (ops : List LedgerOp)
    (_h : (opsTxs ops).all validRec = true) :
    dashboard_history (applyOps [] ops) = opsTxs ops := by
  simp [dashboard_history, applyOps_eq]

/-- The action sequence used in the round-trip witness. -/
def wOps : List LedgerOp :=
  [.manual "Coffee".data 3 "Food".data "2024-03-01".data, .save [itemW]]

/-- Witness for `c7_roundtrip` at a concrete two-action sequence. -/
theorem c7_roundtrip_witness :
    (opsTxs wOps).all validRec = true ∧
    dashboard_history (applyOps [] wOps) = opsTxs wOps :=
  ⟨by decide, c7_roundtrip wOps (by decide)⟩

/-! ### Claim C9 -/

/-- A row whose amount cell is numeric carries the amount key and is not a bad
cell. -/
theorem numCell_props {t : Tx} (h : numCell t = true) :
    hasAmountKey t = true ∧ badCell t = false := by
  cases hax : t.amount with
  | none => simp [numCell, hax] at h
  | some v =>
    cases v with
    | num q => simp [hasAmountKey, badCell, hax]
    | null => simp [numCell, hax] at h
    | bool b => simp [numCell, hax] at h
    | str s => simp [numCell, hax] at h
    | arr xs => simp [numCell, hax] at h
    | obj ms => simp [numCell, hax] at h

/-- Claim C9 counterexample: after clearing a ledger, the history view is empty
but no total is computed at all — the `len > 0` guard routes the dashboard to
the no-data branch — and the amount-column sum itself, evaluated on the empty
ledger, is a `KeyError` (`pd.DataFrame([])` has no `amount` column), not the
number 0.  So `totalSpent` of the empty ledger is not "0, not an error". -/
theorem c9_counterexample :
    dashboard_history (clear_data [itemW]) = [] ∧
    dashboard_total (clear_data [itemW]) = none ∧
    df_amount_sum (clear_data [itemW]) = PdSum.keyError :=
  ⟨rfl, rfl, rfl⟩

/-- Claim C9 (amended): clearing the ledger yields an empty history view, after
which the dashboard computes no total at all (the `len > 0` guard shows the
no-data notice instead); the amount-column sum on the empty ledger raises
`KeyError` rather than returning 0.  For a non-empty ledger all of whose rows
carry numeric amounts, the displayed total is the sum of those amounts. -/
theorem c9_clear_no_total (l : Ledger) (hne : l ≠ [])
    (hnum : l.all numCell = true) :
    dashboard_history (clear_data l) = [] ∧
    dashboard_total (clear_data l) = none ∧
    df_amount_sum (clear_data l) = PdSum.keyError ∧
    dashboard_total l = some (PdSum.val (l.map getAmount).sum) := by
  refine ⟨rfl, rfl, rfl, ?_⟩
  have hlen : 0 < l.length := List.length_pos.mpr hne
  have h1 : l.all (fun t => !hasAmountKey t) = false := by
    cases l with
    | nil => exact absurd rfl hne
    | cons x xs =>
      have hx : numCell x = true :=
        List.all_eq_true.mp hnum x (List.mem_cons_self x xs)
      simp [List.all_cons, (numCell_props hx).1]
  have h2 : l.any badCell = false := by
    apply Bool.eq_false_iff.mpr
    intro hc
    rcases List.any_eq_true.mp hc with ⟨t, ht, hp⟩
    have hn := List.all_eq_true.mp hnum t ht
    rw [(numCell_props hn).2] at hp
    exact Bool.false_ne_true hp
  unfold dashboard_total df_amount_sum
  simp [hlen, h1, h2]

/-- Witness for `c9_clear_no_total` at a concrete two-transaction ledger. -/
theorem c9_clear_no_total_witness :
    dashboard_history (clear_data [sampleTx, itemW]) = [] ∧
    dashboard_total (clear_data [sampleTx, itemW]) = none ∧
    df_amount_sum (clear_data [sampleTx, itemW]) = PdSum.keyError ∧
    dashboard_total [sampleTx, itemW]
      = some (PdSum.val ([sampleTx, itemW].map getAmount).sum) :=
  c9_clear_no_total [sampleTx, itemW] (by simp) (by decide)

/-! ### Claim C1 -/

/-- Claim C1 counterexample: a ledger containing a transaction with amount −5
(Scenario C's item, which violates `amount > 0`) is reachable from the empty
session ledger: the collaborator returns a truthy item list, the user edits the
row to the bad record, and `Save These Items` stores it with no re-check. -/
theorem c1_counterexample :
    Reachable [badTaxi] ∧ validRec badTaxi = false := by
  constructor
  · have h := Reachable.scan [] respX (fun _ => [badTaxi]) true Reachable.empty
    have e : receipt_scan_step [] respX (fun _ => [badTaxi]) true = [badTaxi] := rfl
    exact e ▸ h
  · decide

/-- Claim C1 (amended): every ledger state reachable using only the manual-entry
form (whose widgets enforce `amount ≥ 0.01` and a category from the closed set)
and the clear button satisfies the invariant; the receipt-scan save path
performs no re-check and can store violating transactions (see the
counterexample). -/
theorem c1_manual_invariant (l : Ledger) (h : ReachableManual l) :
    l.all validRec = true := by
  induction h with
  | empty => rfl
  | add l desc amt cat date hR hamt hcat ih =>
    have hv : validRec (mkManualTx desc amt cat date) = true := by
      have h0 : (0 : ℚ) < amt := lt_of_lt_of_le (by norm_num) hamt
      have hc : categories.contains cat = true := List.elem_eq_true_of_mem hcat
      simp [validRec, mkManualTx, h0, hc, hcat]
    simp [manual_add, List.all_append, ih, hv]
  | clearStep l hR ih => rfl

/-- The one-transaction ledger used in the manual-invariant witness. -/
def mW : Ledger := manual_add [] "Coffee".data 5 "Food".data "2024-03-01".data

/-- Witness for `c1_manual_invariant` at a concrete one-step manual ledger. -/
theorem c1_manual_invariant_witness : mW.all validRec = true :=
  c1_manual_invariant mW
    (ReachableManual.add [] "Coffee".data 5 "Food".data "2024-03-01".data
      ReachableManual.empty (by norm_num) (by decide))

/-! ### Claim C2 -/

/-- A collaborator text that parses as a JSON object — not a JSON array. -/
def objInput : Str := "\x7b\"a\": \"b\"\x7d".data

/-- Claim C2 counterexample: on text whose content is a JSON object — which is
not a JSON array, so the claim says the batch must fail with an error and yield
zero items — the program raises no error (no `st.error` notice), returns the
parsed object as the item value, and that value is truthy, so the save flow of
the scanner proceeds with it. -/
theorem c2_counterexample :
    (analyze_receipt_image (Except.ok objInput)).2 = false ∧
    (analyze_receipt_image (Except.ok objInput)).1.isObj = true ∧
    truthy (analyze_receipt_image (Except.ok objInput)).1 = true :=
  ⟨rfl, rfl, rfl⟩

/-- Claim C2 (amended): for every text input whose content, after fence
stripping, fails JSON parse entirely (a successfully parsed non-array value is
not rejected), the extraction returns the empty item list with an error notice
displayed, zero transactions result, no item of the batch is taken, and the
ledger is left unchanged — no partial batch is stored. -/
theorem c2_parse_failure_no_partial (l : Ledger) (text : Str)
    (edited : JsonVal → List Tx) (savePressed : Bool)
    (h : json_loads (clean_receipt_text text) = none) :
    analyze_receipt_image (Except.ok text) = (.arr [], true) ∧
    receipt_scan_step l (Except.ok text) edited savePressed = l := by
  have ha : analyze_receipt_image (Except.ok text) = (.arr [], true) := by
    simp [analyze_receipt_image, h]
  refine ⟨ha, ?_⟩
  simp [receipt_scan_step, ha, truthy]

/-- Witness for `c2_parse_failure_no_partial` at a concrete unparseable text. -/
theorem c2_parse_failure_no_partial_witness :
    json_loads (clean_receipt_text "oops".data) = none ∧
    analyze_receipt_image (Except.ok "oops".data) = (.arr [], true) ∧
    receipt_scan_step [] (Except.ok "oops".data) (fun _ => [itemW]) true = [] := by
  have h : json_loads (clean_receipt_text "oops".data) = none := rfl
  have hc := c2_parse_failure_no_partial [] "oops".data (fun _ => [itemW]) true h
  exact ⟨h, hc.1, hc.2⟩

/-! ### Claim C10 -/

/-- Claim C10: `analyze_receipt_image` never raises: on every failure mode — a
collaborator-call or image-open exception, or a JSON parse failure of the
response text — the exception is caught and the Python value `[]` is returned,
which is exactly what a successfully parsed empty receipt (`"[]"`) returns, so
the caller cannot distinguish the two from the returned value. -/
theorem c10_extraction_never_raises (resp : Except Str Str)
    (h : (∃ e, resp = Except.error e) ∨
         ∃ t, resp = Except.ok t ∧ json_loads (clean_receipt_text t) = none) :
    (analyze_receipt_image resp).1 = .arr [] ∧
    (analyze_receipt_image resp).1 = (analyze_receipt_image (Except.ok "[]".data)).1 := by
  have hok : (analyze_receipt_image (Except.ok "[]".data)).1 = .arr [] := rfl
  rcases h with ⟨e, rfl⟩ | ⟨t, rfl, hp⟩
  · exact ⟨rfl, rfl⟩
  · have h1 : (analyze_receipt_image (Except.ok t)).1 = .arr [] := by
      simp [analyze_receipt_image, hp]
    exact ⟨h1, by rw [h1, hok]⟩

/-- Witness for `c10_extraction_never_raises` at a concrete failed call. -/
theorem c10_extraction_never_raises_witness :
    (analyze_receipt_image (Except.error "boom".data)).1 = .arr [] ∧
    (analyze_receipt_image (Except.error "boom".data)).1
      = (analyze_receipt_image (Except.ok "[]".data)).1 :=
  c10_extraction_never_raises (Except.error "boom".data) (Or.inl ⟨"boom".data, rfl⟩)

/-! ### Claim C8 -/

/-- An infix of `m` is an infix of `w ++ m`. -/
theorem within_append_left (w : Str) {a m : Str} (h : a <:+: m) :
    a <:+: w ++ m := by
  obtain ⟨s, t, rfl⟩ := h
  exact ⟨w ++ s, t, by simp [List.append_assoc]⟩

/-- An infix of `m` is an infix of `m ++ y`. -/
theorem within_append_right (y : Str) {a m : Str} (h : a <:+: m) :
    a <:+: m ++ y := by
  obtain ⟨s, t, rfl⟩ := h
  exact ⟨s, t ++ y, by simp [List.append_assoc]⟩

/-- Every piece appears inside the comma-joined concatenation. -/
theorem mem_joinComma_within : ∀ (xs : List Str) (x : Str), x ∈ xs → x <:+: joinComma xs := by
  intro xs
  induction xs with
  | nil => intro x hx; cases hx
  | cons a ys ih =>
    intro x hx
    cases ys with
    | nil =>
      rcases List.mem_singleton.mp hx with rfl
      exact List.infix_refl _
    | cons b zs =>
      rcases List.mem_cons.mp hx with rfl | hmem
      · have e : joinComma (x :: b :: zs) = x ++ (", ".data ++ joinComma (b :: zs)) := by
          simp [joinComma, List.append_assoc]
        rw [e]
        exact ⟨[], ", ".data ++ joinComma (b :: zs), by simp⟩
      · have e : joinComma (a :: b :: zs) = (a ++ ", ".data) ++ joinComma (b :: zs) := by
          simp [joinComma, List.append_assoc]
        rw [e]
        exact within_append_left _ (ih x hmem)

/-- Claim C8: the `Generate New Insights` handler leaves the ledger exactly as
it was — for every collaborator behaviour, failing ones included — and the
request prompt packages the full transaction history: the serialization of
every stored transaction appears in the prompt, with no truncation or
windowing. -/
theorem c8_advisory_frame_full_history (l : Ledger) (generate : Str → Except Str Str) :
    (generate_insights_click l generate).1 = l ∧
    ∀ t ∈ l, dumpsRec t <:+: buildAdvicePrompt l := by
  refine ⟨rfl, ?_⟩
  intro t ht
  have h1 : dumpsRec t <:+: joinComma (l.map dumpsRec) :=
    mem_joinComma_within _ _ (List.mem_map_of_mem dumpsRec ht)
  have h2 : dumpsRec t <:+: dumps_ledger l := by
    unfold dumps_ledger
    exact within_append_right _ (within_append_left _ h1)
  unfold buildAdvicePrompt
  exact within_append_right _ (within_append_left _ h2)

/-- Witness for `c8_advisory_frame_full_history` at a one-transaction ledger
and a failing collaborator. -/
theorem c8_advisory_frame_full_history_witness :
    (generate_insights_click [sampleTx] (fun _ => Except.error "down".data)).1
      = [sampleTx] ∧
    dumpsRec sampleTx <:+: buildAdvicePrompt [sampleTx] := by
  have h := c8_advisory_frame_full_history [sampleTx] (fun _ => Except.error "down".data)
  exact ⟨h.1, h.2 sampleTx (List.mem_singleton.mpr rfl)⟩

/-! ### Claim C5 -/

/-- A fenced text whose opening fence is the plain ```` ``` ```` variant,
without the language tag, around the valid JSON body `[]`. -/
def plainFenced : Str := "```\n[]\n```".data

/-- Claim C5 counterexample: on a response fenced with the plain ```` ``` ````
opening (no language tag), the clean-up removes only the trailing fence: the
cleaned text still starts with the leading fence, and the subsequent parse
therefore fails (the error notice is displayed) even though the fenced body is
a valid JSON array. -/
theorem c5_counterexample :
    clean_receipt_text plainFenced = "```\n[]\n".data ∧
    fence.isPrefixOf (clean_receipt_text plainFenced) = true ∧
    (analyze_receipt_image (Except.ok plainFenced)).2 = true :=
  ⟨rfl, rfl, rfl⟩

/-- Claim C5 (amended): after whitespace stripping, a leading ```` ```json ````
fence is removed, and a trailing ```` ``` ```` fence is removed; but a plain
```` ``` ```` opening without the language tag is not removed — the cleaned
text keeps its leading fence. -/
theorem c5_fence_stripping (s t : Str) :
    (pyStrip s = fenceJson ++ (t ++ fence) → clean_receipt_text s = t) ∧
    (pyStrip s = fence ++ (t ++ fence) →
      fenceJson.isPrefixOf (fence ++ (t ++ fence)) = false →
      clean_receipt_text s = fence ++ t) := by
  have hp1 : fenceJson.isPrefixOf (fenceJson ++ (t ++ fence)) = true := by
    rw [List.isPrefixOf_iff_prefix]; exact List.prefix_append _ _
  have hs1 : fence.isSuffixOf (t ++ fence) = true := by
    rw [List.isSuffixOf_iff_suffix]; exact List.suffix_append _ _
  have hs2 : fence.isSuffixOf (fence ++ (t ++ fence)) = true := by
    rw [List.isSuffixOf_iff_suffix]
    refine ⟨fence ++ t, ?_⟩
    simp [List.append_assoc]
  constructor
  · intro h
    simp only [clean_receipt_text, h]
    rw [if_pos hp1, List.drop_left]
    rw [if_pos hs1]
    have hl : (t ++ fence).length - fence.length = t.length := by simp
    rw [hl, List.take_left]
  · intro h hpf
    simp only [clean_receipt_text, h, hpf]
    rw [if_neg Bool.false_ne_true]
    rw [if_pos hs2]
    have e : fence ++ (t ++ fence) = (fence ++ t) ++ fence := by
      simp [List.append_assoc]
    rw [e]
    have hl : ((fence ++ t) ++ fence).length - fence.length = (fence ++ t).length := by
      simp [Nat.add_comm]
    rw [hl, List.take_left]

/-- Witness for `c5_fence_stripping`: the ```` ```json ```` opening is stripped,
the plain ```` ``` ```` opening is kept. -/
theorem c5_fence_stripping_witness :
    clean_receipt_text "```json[]```".data = "[]".data ∧
    clean_receipt_text "```[]```".data = fence ++ "[]".data := by
  refine ⟨(c5_fence_stripping "```json[]```".data "[]".data).1 (by decide),
          (c5_fence_stripping "```[]```".data "[]".data).2 (by decide) (by decide)⟩
